import Mathlib

/-!
Verification of the NIP-46 pairing and identity hot-swap subsystem.

Shallow embedding of the remote-signer pairing subsystem of
`rust-nostr-mcp`:

* `src/nip46.rs` — `Nip46State`, `Nip46Session` (session state machine,
  relay-list parsing, bunker connect, disconnect, `status_json`);
* `src/nostr_client.rs` — the identity gate inside `NostrClient`
  (`new`, `enable_nip46_signer`, `disable_nip46_signer`);
* `src/tools.rs` — the tool entry points `nostr_connect`,
  `nostr_connect_status`, `nostr_disconnect` and the background
  activation-monitor task spawned by generate-mode `nostr_connect`.

External collaborators (the `RelayUrl::parse` of the `nostr` SDK,
`NostrConnect::new`, the remote `get_public_key` probe, and the
`qrcode`/`image` crates) are not code of this repository; they are
represented by parameters or by small total models, each documented at
its definition.  Public keys and `NostrConnect` signer handles are
opaque values, modelled as `Nat`.
-/

/-- Rust `const DEFAULT_NIP46_TIMEOUT_SECS: u64 = 120;` (src/nip46.rs). -/
def DEFAULT_NIP46_TIMEOUT_SECS : Nat := 120

/-- Rust `const DEFAULT_NIP46_RELAYS: &[&str]` (src/nip46.rs): the built-in
relays substituted when the configured relay list is empty. -/
def DEFAULT_NIP46_RELAYS : List String :=
  ["wss://relay.nsec.app", "wss://relay.damus.io"]

/-- The poll interval of the background monitor spawned by generate-mode
`nostr_connect`: `tokio::time::sleep(Duration::from_secs(2))`
(src/tools.rs line 1124). -/
def MONITOR_POLL_INTERVAL_SECS : Nat := 2

/-- The iteration bound of the loop in the background monitor:
`for _ in 0..60` (src/tools.rs line 1123). -/
def MONITOR_MAX_ITERS : Nat := 60

/-- Rust `enum Nip46State` (src/nip46.rs): connection state of the NIP-46
pairing session. -/
inductive Nip46State where
  /-- Rust `Disconnected` — not connected. -/
  | disconnected : Nip46State
  /-- Rust `WaitingForConnection { connect_uri, qr_base64 }` — QR code shown,
  waiting for the remote signer. -/
  | waitingForConnection (connect_uri : String) (qr_base64 : String) : Nip46State
  /-- Rust `Connected { user_pubkey }` — remote signer confirmed. -/
  | connected (user_pubkey : Nat) : Nip46State
  /-- Rust `Error(String)` — error state (declared in the source; see the
  theorems below for whether it is ever reached). -/
  | stateError (msg : String) : Nip46State
deriving DecidableEq, Repr

/-- Rust `struct Nip46Config` (src/nip46.rs). -/
structure Nip46Config where
  relays : List String
  perms : Option String
  bunker_uri : Option String
deriving DecidableEq, Repr

/-- Rust `struct Nip46Session` (src/nip46.rs): the session manager.  The
`state` and `signer` fields are the two `Arc<RwLock<_>>` cells of the
source; `app_pubkey` is the public key of the `app_keys` keypair
generated in `Nip46Session::new`; `config` is the session config. -/
structure Nip46Session where
  state : Nip46State
  signer : Option Nat
  app_pubkey : Nat
  config : Nip46Config
deriving DecidableEq, Repr

/-- Rust `Nip46Session::new` (src/nip46.rs): fresh session, state
`Disconnected`, no signer; `appPk` stands for the freshly generated
`app_keys` public key. -/
def Nip46Session.new (config : Nip46Config) (appPk : Nat) : Nip46Session :=
  { state := .disconnected, signer := none, app_pubkey := appPk, config := config }

/-- Effective relay-string list of `Nip46Session::parse_relay_urls`
(src/nip46.rs lines 317-321): the configured list, or
`DEFAULT_NIP46_RELAYS` when it is empty. -/
def Nip46Session.relay_strs (s : Nip46Session) : List String :=
  if s.config.relays.isEmpty then DEFAULT_NIP46_RELAYS else s.config.relays

/-- The `.iter().map(...).collect::<Result<Vec<_>>>()` of
`parse_relay_urls`, unfolded: stop at the first URL the parser rejects,
otherwise collect every parsed URL in order.  `parse` stands for the
external `RelayUrl::parse`. -/
def collectRelays (parse : String → Option α) : List String → Except String (List α)
  | [] => .ok []
  | url :: rest =>
    match parse url with
    | none => .error ("リレー URL のパースに失敗 " ++ url)
    | some r =>
      match collectRelays parse rest with
      | .error e => .error e
      | .ok rs => .ok (r :: rs)

/-- Rust `Nip46Session::parse_relay_urls` (src/nip46.rs lines 316-330),
parameterised by the external `RelayUrl::parse`. -/
def Nip46Session.parse_relay_urls (s : Nip46Session) (parse : String → Option α) :
    Except String (List α) :=
  collectRelays parse s.relay_strs

/-- Model of the external `RelayUrl::parse` of the `nostr` SDK: a relay
URL parses exactly when it is a websocket URL (`wss://` or `ws://`
scheme with a nonempty remainder).  The own tests of the repository
(`test_nip46_config_default_relays`, `test_nip46_config_custom_relays`)
require the `wss://…` URLs used below to parse. -/
def relayUrlParse (url : String) : Option String :=
  if (url.data.take 6 == "wss://".data && decide (url.data.length > 6))
      || (url.data.take 5 == "ws://".data && decide (url.data.length > 5)) then
    some url
  else
    none

/-- The `nostrconnect://` URI built by `start_client_connect`
(src/nip46.rs lines 118-131) from the app public key, relays and fixed
metadata; the exact rendering is the external `NostrConnectURI`
`Display`, modelled as an abstract injective encoding. -/
def mkConnectUri (appPk : Nat) (relays : List String) : String :=
  "nostrconnect://" ++ toString appPk ++ "?relays=" ++ toString relays.length

/-- Rust `generate_qr_base64` (src/nip46.rs lines 343-402): renders a string
as a QR code PNG and base64-encodes it.  The QR module grid, PNG
encoder and base64 encoder are external crates; the function is
modelled as an abstract nonempty encoding of its input (the
repository test `test_generate_qr_base64` shows it succeeds on a
`nostrconnect://` URI). -/
def generate_qr_base64 (data : String) : String :=
  "iVBORw0KGgo:" ++ data

/-- Rust `struct Nip46ConnectResult` (src/nip46.rs). -/
structure Nip46ConnectResult where
  connect_uri : String
  qr_base64 : String
deriving DecidableEq, Repr

/-- Rust `Nip46Session::start_client_connect` (src/nip46.rs lines 111-166):
parse the relay URLs (propagating a parse failure), build the
`nostrconnect://` URI and its QR code, create a fresh `NostrConnect`
signer (`freshHandle` stands for the handle the external
`NostrConnect::new` returns), store the signer, and move the state to
`WaitingForConnection`. -/
def Nip46Session.start_client_connect (s : Nip46Session) (freshHandle : Nat) :
    Except String (Nip46Session × Nip46ConnectResult) :=
  match s.parse_relay_urls relayUrlParse with
  | .error e => .error e
  | .ok relays =>
    let uri_string := mkConnectUri s.app_pubkey relays
    let qr := generate_qr_base64 uri_string
    .ok ({ s with state := .waitingForConnection uri_string qr,
                  signer := some freshHandle },
         { connect_uri := uri_string, qr_base64 := qr })

/-- Outcome of the external handshake probe `signer.get_public_key()`
used by `start_bunker_connect` (src/nip46.rs lines 184-187). -/
inductive ProbeResult where
  | ok (pk : Nat)
  | fail (e : String)
deriving DecidableEq, Repr

/-- Rust `Nip46Session::start_bunker_connect` (src/nip46.rs lines 169-207):
parse the `bunker://` URI (`parsedUri` is the outcome of the external
`NostrConnectURI::parse`), create the signer (`freshHandle`), run the
`get_public_key` probe, and only on probe success store the signer and
set the state to `Connected`.  On either failure the function returns
the error before touching `state` or `signer`. -/
def Nip46Session.start_bunker_connect (s : Nip46Session)
    (parsedUri : Bool) (freshHandle : Nat) (probe : ProbeResult) :
    Except String Nip46Session :=
  if parsedUri = false then
    .error "bunker URI のパースに失敗"
  else
    match probe with
    | .fail e => .error ("リモートサイナーへの接続に失敗: " ++ e)
    | .ok user_pubkey =>
      .ok { s with signer := some freshHandle,
                   state := .connected user_pubkey }

/-- Rust `Nip46Session::disconnect` (src/nip46.rs lines 245-264): take the
signer out, shut it down — an `Err` from `shutdown` (the
`shutdownResult` parameter) is logged with `warn!` and dropped — set the
state to `Disconnected`, and return `Ok(())` on every path. -/
def Nip46Session.disconnectResult (s : Nip46Session)
    (_shutdownResult : Except String Unit) : Except String Nip46Session :=
  .ok { s with state := .disconnected, signer := none }

/-- Rust `Nip46Session::is_connected` (src/nip46.rs lines 267-269). -/
def Nip46Session.is_connected (s : Nip46Session) : Bool :=
  match s.state with
  | .connected _ => true
  | _ => false

/-- Rust `Nip46Session::connected_pubkey` (src/nip46.rs lines 272-277). -/
def Nip46Session.connected_pubkey (s : Nip46Session) : Option Nat :=
  match s.state with
  | .connected user_pubkey => some user_pubkey
  | _ => none

/-- Rust `Nip46Session::get_nostr_connect` (src/nip46.rs lines 280-282). -/
def Nip46Session.get_nostr_connect (s : Nip46Session) : Option Nat :=
  s.signer

/-- The `"status"` field of `Nip46Session::status_json`
(src/nip46.rs lines 285-313). -/
def Nip46State.status_json_status : Nip46State → String
  | .disconnected => "disconnected"
  | .waitingForConnection _ _ => "waiting"
  | .connected _ => "connected"
  | .stateError _ => "error"

/-- The signer held by the wrapped `nostr-sdk` `Client`: the local key
pair passed to `Client::new(keys)`, or a `NostrConnect` handle installed
by `client.set_signer(signer)`. -/
inductive SdkSigner where
  | localKeys (pk : Nat)
  | nip46 (handle : Nat)
deriving DecidableEq, Repr

/-- The identity-gate fields of `struct NostrClient`
(src/nostr_client.rs lines 85-103): `has_write_access`, `public_key`,
the `nip46_active` flag, and the signer installed in the inner
`nostr-sdk` client.  Relay lists, caches and connection flags play no
part in the gate and are omitted. -/
structure NostrClient where
  has_write_access : Bool
  public_key : Option Nat
  nip46_active : Bool
  sdk_signer : Option SdkSigner
deriving DecidableEq, Repr

/-- The identity part of `NostrClient::new` (src/nostr_client.rs lines
107-154): with a configured secret key (given here by the public key
`pk` that `parse_secret_key` derives from it) the client starts with
write access and that key; without one it starts read-only.
`nip46_active` starts `false` in both cases. -/
def NostrClient.new (secret_key : Option Nat) : NostrClient :=
  match secret_key with
  | some pk =>
    { has_write_access := true, public_key := some pk,
      nip46_active := false, sdk_signer := some (.localKeys pk) }
  | none =>
    { has_write_access := false, public_key := none,
      nip46_active := false, sdk_signer := none }

/-- Rust `NostrClient::enable_nip46_signer` (src/nostr_client.rs lines
194-211): install the `NostrConnect` signer, set `has_write_access`,
bind `public_key` to the remote user key, raise `nip46_active`; the
function body ends in `Ok(())` on every path. -/
def NostrClient.enable_nip46_signer (c : NostrClient)
    (signer : Nat) (user_pubkey : Nat) : NostrClient :=
  { c with sdk_signer := some (.nip46 signer),
           has_write_access := true,
           public_key := some user_pubkey,
           nip46_active := true }

/-- Rust `NostrClient::disable_nip46_signer` (src/nostr_client.rs lines
214-225): when `nip46_active` is set, clear it, and clear
`has_write_access` and `public_key`; the signer of the inner client is left
in place (source comment: the signer stays, gated by
`has_write_access`).  When `nip46_active` is not set, nothing changes. -/
def NostrClient.disable_nip46_signer (c : NostrClient) : NostrClient :=
  if c.nip46_active then
    { c with nip46_active := false,
             has_write_access := false,
             public_key := none }
  else
    c

/-- Rust `NostrClient::is_nip46_active` (src/nostr_client.rs lines 228-230). -/
def NostrClient.is_nip46_active (c : NostrClient) : Bool :=
  c.nip46_active

/-- A call mutating the `NostrClient` gate after construction: the only
two mutators of `has_write_access` / `public_key` / `nip46_active` in
the source are `enable_nip46_signer` and `disable_nip46_signer`. -/
inductive ClientOp where
  | enable (signer : Nat) (user_pubkey : Nat)
  | disable
deriving DecidableEq, Repr

/-- Apply one gate mutation. -/
def applyClientOp (c : NostrClient) : ClientOp → NostrClient
  | .enable signer pk => c.enable_nip46_signer signer pk
  | .disable => c.disable_nip46_signer

/-- One live background-monitor task spawned by generate-mode
`nostr_connect` (src/tools.rs lines 1121-1139); `remaining` is the
number of loop iterations of `for _ in 0..60` the task has left. -/
structure Monitor where
  remaining : Nat
deriving DecidableEq, Repr

/-- The whole pairing subsystem: the process-wide shared
`Arc<Nip46Session>`, the `Arc<RwLock<NostrClient>>`, and the spawned
monitor tasks (one slot per spawn; `none` once the task has exited). -/
structure SysState where
  session : Nip46Session
  client : NostrClient
  monitors : List (Option Monitor)
deriving DecidableEq, Repr

/-- Result of one monitor loop iteration. -/
structure TickResult where
  client : NostrClient
  monitor : Option Monitor
  activated : Bool
deriving DecidableEq, Repr

/-- One iteration of the loop body of the spawned monitor (src/tools.rs
lines 1123-1138), taken atomically after the 2-second sleep: read
`session.is_connected()`; when connected, read the session signer and
connected pubkey and call `client.enable_nip46_signer`, then `break`
(the `break` sits in the connected branch whether or not the signer was
present); otherwise consume one of the remaining iterations, and exit
when none remain.  A monitor whose iterations are exhausted does
nothing.  `activated` records whether this iteration called
`enable_nip46_signer`. -/
def monitorTick (m : Monitor) (sess : Nip46Session) (c : NostrClient) : TickResult :=
  if m.remaining = 0 then
    { client := c, monitor := none, activated := false }
  else if sess.is_connected then
    match sess.get_nostr_connect, sess.connected_pubkey with
    | some signer, some pk =>
      { client := c.enable_nip46_signer signer pk, monitor := none, activated := true }
    | _, _ =>
      { client := c, monitor := none, activated := false }
  else
    let r := m.remaining - 1
    { client := c, monitor := if r = 0 then none else some ⟨r⟩, activated := false }

/-- Whether a tick of the `i`-th spawned monitor, taken in state `s`,
would call `enable_nip46_signer`. -/
def tickActivates (s : SysState) (i : Nat) : Bool :=
  match s.monitors.get? i with
  | some (some m) => (monitorTick m s.session s.client).activated
  | _ => false

/-- An externally visible step of the subsystem, as driven by the tool
entry points of src/tools.rs and the scheduler. -/
inductive Event where
  /-- Rust `nostr_connect` without `bunker_uri` (src/tools.rs lines
  1113-1149): `start_client_connect` then spawn a monitor with 60
  iterations.  `freshHandle` is the handle of the `NostrConnect` the
  external library creates.  On a relay-parse error the `?` operator
  returns early and nothing changes. -/
  | beginGenerate (freshHandle : Nat)
  /-- Rust `nostr_connect` with `bunker_uri` (src/tools.rs lines 1096-1112):
  `start_bunker_connect` then, only on success, `activate_nip46_signer`. -/
  | beginBunker (parsedUri : Bool) (freshHandle : Nat) (probe : ProbeResult)
  /-- Rust `nostr_disconnect` (src/tools.rs lines 1177-1189). -/
  | endPairing
  /-- the scheduler runs one loop iteration of the `i`-th spawned
  monitor task. -/
  | tick (i : Nat)
deriving DecidableEq, Repr

/-- Rust `ToolExecutor::activate_nip46_signer` (src/tools.rs lines
1153-1161): read the session signer and connected pubkey and, when
both are present, call `enable_nip46_signer`; otherwise leave the
client alone. -/
def activate_nip46_signer (sess : Nip46Session) (c : NostrClient) : NostrClient :=
  match sess.get_nostr_connect, sess.connected_pubkey with
  | some signer, some pk => c.enable_nip46_signer signer pk
  | _, _ => c

/-- Rust `ToolExecutor::nostr_disconnect` (src/tools.rs lines 1177-1189):
`session.disconnect()?` (whose `shutdown` outcome is the parameter),
then `client.disable_nip46_signer()`, then a success payload. -/
def nostr_disconnect (s : SysState) (shutdownResult : Except String Unit) :
    Except String SysState :=
  match s.session.disconnectResult shutdownResult with
  | .error e => .error e
  | .ok sess' =>
    .ok { s with session := sess', client := s.client.disable_nip46_signer }

/-- One step of the subsystem. -/
def step (s : SysState) : Event → SysState
  | .beginGenerate freshHandle =>
    match s.session.start_client_connect freshHandle with
    | .error _ => s
    | .ok (sess', _) =>
      { s with session := sess',
               monitors := s.monitors ++ [some ⟨MONITOR_MAX_ITERS⟩] }
  | .beginBunker parsedUri freshHandle probe =>
    match s.session.start_bunker_connect parsedUri freshHandle probe with
    | .error _ => s
    | .ok sess' =>
      { s with session := sess',
               client := activate_nip46_signer sess' s.client }
  | .endPairing =>
    match nostr_disconnect s (.ok ()) with
    | .error _ => s
    | .ok s' => s'
  | .tick i =>
    match s.monitors.get? i with
    | some (some m) =>
      let r := monitorTick m s.session s.client
      { s with client := r.client, monitors := s.monitors.set i r.monitor }
    | _ => s

/-- Run a list of events from a state. -/
def run (s : SysState) (es : List Event) : SysState :=
  es.foldl step s

/-- Process start: fresh `Disconnected` session over config `cfg` with
app key `appPk`, a `NostrClient` built from the optional local secret
key, no monitor tasks. -/
def initState (cfg : Nip46Config) (appPk : Nat) (secret_key : Option Nat) : SysState :=
  { session := Nip46Session.new cfg appPk,
    client := NostrClient.new secret_key,
    monitors := [] }

/-- The pair reported by `nostr_connect_status` (src/tools.rs lines
1164-1174): the `status_json` status string of the session and the client
`is_nip46_active` as `signer_active`. -/
def nostr_connect_status (s : SysState) : String × Bool :=
  (s.session.state.status_json_status, s.client.is_nip46_active)

/-! ## Helper lemmas -/

/-- The gate invariant of §3 of the spec, on the embedded `NostrClient`. -/
def NostrClient.gateInvariant (c : NostrClient) : Prop :=
  c.has_write_access = c.public_key.isSome

lemma NostrClient.gateInvariant_new (sk : Option Nat) :
    (NostrClient.new sk).gateInvariant := by
  cases sk <;> simp [NostrClient.new, NostrClient.gateInvariant]

lemma NostrClient.gateInvariant_applyClientOp (c : NostrClient) (op : ClientOp)
    (h : c.gateInvariant) : (applyClientOp c op).gateInvariant := by
  cases op with
  | enable signer pk =>
    simp [applyClientOp, NostrClient.enable_nip46_signer, NostrClient.gateInvariant]
  | disable =>
    unfold NostrClient.gateInvariant at h ⊢
    by_cases hn : c.nip46_active <;>
      simp [applyClientOp, NostrClient.disable_nip46_signer, hn, h]

lemma NostrClient.gateInvariant_foldl (ops : List ClientOp) :
    ∀ c : NostrClient, c.gateInvariant → (ops.foldl applyClientOp c).gateInvariant := by
  induction ops with
  | nil => intro c h; exact h
  | cons op rest ih =>
    intro c h
    exact ih (applyClientOp c op) (NostrClient.gateInvariant_applyClientOp c op h)

lemma step_tick_session (s : SysState) (i : Nat) :
    (step s (.tick i)).session = s.session := by
  simp only [step]
  cases h : s.monitors.get? i with
  | none => simp [h]
  | some o => cases o <;> simp [h]

lemma run_ticks_session (ticks : List Event)
    (hticks : ∀ e ∈ ticks, ∃ i, e = Event.tick i) :
    ∀ s : SysState, (run s ticks).session = s.session := by
  induction ticks with
  | nil => intro s; rfl
  | cons e rest ih =>
    intro s
    obtain ⟨i, rfl⟩ := hticks e (by simp)
    have hrest : ∀ e ∈ rest, ∃ i, e = Event.tick i := by
      intro e he; exact hticks e (by simp [he])
    calc (run s (Event.tick i :: rest)).session
        = (run (step s (.tick i)) rest).session := rfl
      _ = (step s (.tick i)).session := ih hrest _
      _ = s.session := step_tick_session s i

/-- Convenient empty configuration: no relays configured, no perms, no
bunker URI (the `unwrap_or` default built in `McpServer::new`,
src/mcp.rs lines 103-107). -/
def emptyCfg : Nip46Config :=
  { relays := [], perms := none, bunker_uri := none }

/-! ## Claim theorems -/

/-- C6: in every state of `NostrClient` reachable by `new` followed by
any sequence of `enable_nip46_signer` / `disable_nip46_signer` calls,
`has_write_access` equals `public_key.isSome`. -/
theorem c6_gate_invariant (sk : Option Nat) (ops : List ClientOp) :
    (ops.foldl applyClientOp (NostrClient.new sk)).has_write_access
      = (ops.foldl applyClientOp (NostrClient.new sk)).public_key.isSome :=
  NostrClient.gateInvariant_foldl ops (NostrClient.new sk)
    (NostrClient.gateInvariant_new sk)

/-- C2: evaluation of the code at the failing input.  A client started
with a local secret key (write access on, local public key `1` bound)
that activates a NIP-46 remote signer (handle `5`, remote key `2`) and
then runs `disable_nip46_signer` ends with `has_write_access = false`
and `public_key = none` — the local key write access is not restored,
although the local key pair is still installed in the inner client. -/
theorem c2_local_key_not_restored :
    (NostrClient.new (some 1)).has_write_access = true ∧
    (NostrClient.new (some 1)).public_key = some 1 ∧
    (((NostrClient.new (some 1)).enable_nip46_signer 5 2).disable_nip46_signer).has_write_access
        = false ∧
    (((NostrClient.new (some 1)).enable_nip46_signer 5 2).disable_nip46_signer).public_key
        = none ∧
    (((NostrClient.new (some 1)).enable_nip46_signer 5 2).disable_nip46_signer).sdk_signer
        = some (.nip46 5) := by
  decide

/-- The `for _ in 0..60` loop of the spawned monitor (src/tools.rs
lines 1123-1138), counting executed iterations: `obs k` tells whether
`session.is_connected()` observes `true` at the `k`-th iteration, in
which case the loop breaks after that iteration; otherwise the next
iteration runs, until `fuel` iterations have been used. -/
def monitorLoopIterations (obs : Nat → Bool) : Nat → Nat → Nat
  | 0, _ => 0
  | fuel + 1, k => if obs k then 1 else 1 + monitorLoopIterations obs fuel (k + 1)

lemma monitorLoopIterations_le (obs : Nat → Bool) :
    ∀ fuel k, monitorLoopIterations obs fuel k ≤ fuel := by
  intro fuel
  induction fuel with
  | zero => intro k; simp [monitorLoopIterations]
  | succ n ih =>
    intro k
    by_cases h : obs k
    · simp [monitorLoopIterations, h]
    · simp [monitorLoopIterations, h]
      have := ih (k + 1)
      omega

/-- C9: the background monitor loop executes at most
`MONITOR_MAX_ITERS = 60` iterations whatever the session does, and that
cap equals the ceiling of the 120-second session timeout divided by the
2-second poll interval. -/
theorem c9_monitor_iteration_bound (obs : Nat → Bool) :
    monitorLoopIterations obs MONITOR_MAX_ITERS 0 ≤ MONITOR_MAX_ITERS ∧
    MONITOR_MAX_ITERS
      = (DEFAULT_NIP46_TIMEOUT_SECS + MONITOR_POLL_INTERVAL_SECS - 1)
          / MONITOR_POLL_INTERVAL_SECS :=
  ⟨monitorLoopIterations_le obs MONITOR_MAX_ITERS 0, by decide⟩

lemma collectRelays_isOk (parse : String → Option α) (l : List String) :
    (collectRelays parse l).isOk = l.all fun u => (parse u).isSome := by
  induction l with
  | nil => simp [collectRelays, Except.isOk, Except.toBool]
  | cons u rest ih =>
    cases hp : parse u with
    | none => simp [collectRelays, hp, Except.isOk, Except.toBool]
    | some r =>
      cases hrec : collectRelays parse rest with
      | error e =>
        rw [hrec] at ih
        simp [collectRelays, hp, hrec, Except.isOk, Except.toBool] at ih ⊢
        exact ih
      | ok rs =>
        rw [hrec] at ih
        simp [collectRelays, hp, hrec, Except.isOk, Except.toBool] at ih ⊢
        exact ih

/-- C8 amended: relay parsing succeeds exactly when every relay of the
effective list (the configured list, or the defaults when it is empty)
parses; a single unparseable entry fails the whole call, for any
per-URL parser. -/
theorem c8_parse_relay_urls_all_or_nothing {α : Type}
    (s : Nip46Session) (parse : String → Option α) :
    (s.parse_relay_urls parse).isOk
      = s.relay_strs.all fun u => (parse u).isSome :=
  collectRelays_isOk parse s.relay_strs

/-- C8 counterexample: a configuration whose first relay parses and
whose second does not.  At least one configured relay parses, yet
`parse_relay_urls` fails — refuting the claim that parsing succeeds
whenever at least one configured relay URL is valid. -/
theorem c8_counterexample :
    (relayUrlParse "wss://relay.damus.io").isSome = true ∧
    ((Nip46Session.new
        { relays := ["wss://relay.damus.io", "not a url"],
          perms := none, bunker_uri := none } 7).parse_relay_urls
            relayUrlParse).isOk = false := by
  decide

/-- C10: with an empty configured relay list, `parse_relay_urls` does
not fail: it substitutes the two built-in default relays
(`wss://relay.nsec.app`, `wss://relay.damus.io`) and returns exactly
two relay URLs, and generate-mode `start_client_connect` over that
configuration succeeds, producing the bootstrap payload. -/
theorem c10_empty_relays_use_defaults (perms bunker : Option String)
    (appPk freshHandle : Nat) :
    ((Nip46Session.new { relays := [], perms := perms, bunker_uri := bunker }
        appPk).parse_relay_urls relayUrlParse) = .ok DEFAULT_NIP46_RELAYS ∧
    DEFAULT_NIP46_RELAYS = ["wss://relay.nsec.app", "wss://relay.damus.io"] ∧
    ((Nip46Session.new { relays := [], perms := perms, bunker_uri := bunker }
        appPk).start_client_connect freshHandle).isOk = true := by
  have hparse : ((Nip46Session.new
      { relays := [], perms := perms, bunker_uri := bunker }
        appPk).parse_relay_urls relayUrlParse) = .ok DEFAULT_NIP46_RELAYS := by
    rfl
  refine ⟨hparse, rfl, ?_⟩
  simp [Nip46Session.start_client_connect, hparse, Except.isOk, Except.toBool]

lemma NostrClient.disable_idem (c : NostrClient) :
    c.disable_nip46_signer.disable_nip46_signer = c.disable_nip46_signer := by
  by_cases h : c.nip46_active <;> simp [NostrClient.disable_nip46_signer, h]

/-- C7: `nostr_disconnect` always returns success — whatever the signer
shutdown returned (`sr`, logged and dropped), and also when no session
is active — and leaves the session `Disconnected` with no signer; a
second call returns exactly the state the first call produced, so
calling it twice equals calling it once. -/
theorem c7_disconnect_idempotent (s : SysState) (sr sr2 : Except String Unit) :
    ∃ s' : SysState,
      nostr_disconnect s sr = .ok s' ∧
      s'.session.state = .disconnected ∧
      s'.session.signer = none ∧
      nostr_disconnect s' sr2 = .ok s' := by
  refine ⟨_, rfl, rfl, rfl, ?_⟩
  simp [nostr_disconnect, Nip46Session.disconnectResult, NostrClient.disable_idem]

/-- C4 counterexample: a fresh (`Disconnected`) session, direct-mode
connect whose probe fails.  The call returns the error synchronously,
but the whole state — session included — is exactly as before: the next
`status()` reports `"disconnected"`, not a failure state, refuting the
claimed transition to `Failed`. -/
theorem c4_counterexample :
    ((Nip46Session.new emptyCfg 7).start_bunker_connect true 1
        (.fail "connection refused")).isOk = false ∧
    step (initState emptyCfg 7 none) (.beginBunker true 1 (.fail "connection refused"))
        = initState emptyCfg 7 none ∧
    (nostr_connect_status (step (initState emptyCfg 7 none)
        (.beginBunker true 1 (.fail "connection refused")))).1 = "disconnected" :=
  ⟨rfl, rfl, rfl⟩

/-- C4 amended: a direct-mode `begin_pairing` whose handshake probe
fails surfaces the error synchronously as the result of the call, but
the session does not transition: the whole subsystem state is unchanged,
so the next `status()` reports the prior state (for a fresh session,
`"disconnected"`). -/
theorem c4_bunker_probe_failure (s : SysState) (freshHandle : Nat) (msg : String) :
    s.session.start_bunker_connect true freshHandle (.fail msg)
        = .error ("リモートサイナーへの接続に失敗: " ++ msg) ∧
    step s (.beginBunker true freshHandle (.fail msg)) = s := by
  constructor
  · simp [Nip46Session.start_bunker_connect]
  · simp [step, Nip46Session.start_bunker_connect]

/-- C5: every failing direct-mode `begin_pairing` — unparseable bunker
URI or failed probe, both of which make `start_bunker_connect` return
an error — leaves the identity gate untouched: `has_write_access`,
`public_key` and `nip46_active` keep exactly their previous values,
activation never being attempted on the error path. -/
theorem c5_bunker_failure_gate_unchanged (s : SysState) (parsedUri : Bool)
    (freshHandle : Nat) (probe : ProbeResult) (e : String)
    (hfail : s.session.start_bunker_connect parsedUri freshHandle probe = .error e) :
    (step s (.beginBunker parsedUri freshHandle probe)).client.has_write_access
        = s.client.has_write_access ∧
    (step s (.beginBunker parsedUri freshHandle probe)).client.public_key
        = s.client.public_key ∧
    (step s (.beginBunker parsedUri freshHandle probe)).client.nip46_active
        = s.client.nip46_active := by
  simp [step, hfail]

/-- C5 witness: a concrete failing direct-mode call — unparseable
bunker URI on a fresh read-only process — surfaces a parse error and
leaves the gate fields exactly as they were. -/
theorem c5_witness :
    (Nip46Session.new emptyCfg 7).start_bunker_connect false 1 (.ok 5)
        = .error "bunker URI のパースに失敗" ∧
    ((step (initState emptyCfg 7 none) (.beginBunker false 1 (.ok 5))).client.has_write_access
        = (initState emptyCfg 7 none).client.has_write_access ∧
    (step (initState emptyCfg 7 none) (.beginBunker false 1 (.ok 5))).client.public_key
        = (initState emptyCfg 7 none).client.public_key ∧
    (step (initState emptyCfg 7 none) (.beginBunker false 1 (.ok 5))).client.nip46_active
        = (initState emptyCfg 7 none).client.nip46_active) :=
  ⟨rfl, c5_bunker_failure_gate_unchanged (initState emptyCfg 7 none) false 1 (.ok 5)
    "bunker URI のパースに失敗" rfl⟩

lemma start_client_connect_state (s : Nip46Session) (fh : Nat)
    (p : Nip46Session × Nip46ConnectResult)
    (h : s.start_client_connect fh = .ok p) :
    p.1.state = .waitingForConnection p.2.connect_uri p.2.qr_base64 := by
  unfold Nip46Session.start_client_connect at h
  cases hp : s.parse_relay_urls (α := String) relayUrlParse with
  | error msg => rw [hp] at h; exact absurd h (by simp)
  | ok relays =>
    rw [hp] at h
    rw [Except.ok.injEq] at h
    rw [← h]

set_option maxRecDepth 8000 in
/-- C3 counterexample: generate-mode `begin_pairing` over the default
relays, then the full 120-second window — all 60 monitor iterations —
with no confirmation.  `status()` afterwards reports `"waiting"`, not
the claimed `"failed"`, and the signer was never activated. -/
theorem c3_counterexample :
    (nostr_connect_status (run (step (initState emptyCfg 7 none) (.beginGenerate 1))
        (List.replicate 60 (.tick 0)))).1 = "waiting" ∧
    (nostr_connect_status (run (step (initState emptyCfg 7 none) (.beginGenerate 1))
        (List.replicate 60 (.tick 0)))).2 = false ∧
    "waiting" ≠ "failed" := by
  refine ⟨rfl, rfl, by decide⟩

/-- C3 amended: a generate-mode `begin_pairing` that succeeds (relays
parse) followed by any schedule of monitor ticks and no other call:
the session stays `WaitingForConnection` — no code path moves a
generate-mode session to `Connected` or to the error state — so
`status()` reports `"waiting"`: never `"connected"`, but also never
`"failed"`; the timeout does not transition the session. -/
theorem c3_generate_no_confirmation_status (s : SysState) (freshHandle : Nat)
    (ticks : List Event)
    (hticks : ∀ e ∈ ticks, ∃ i, e = Event.tick i)
    (hok : (s.session.start_client_connect freshHandle).isOk = true) :
    (nostr_connect_status (run (step s (.beginGenerate freshHandle)) ticks)).1
        = "waiting" := by
  have hsess : (run (step s (.beginGenerate freshHandle)) ticks).session
      = (step s (.beginGenerate freshHandle)).session :=
    run_ticks_session ticks hticks _
  cases hsc : s.session.start_client_connect freshHandle with
  | error msg => rw [hsc] at hok; exact absurd hok (by simp [Except.isOk, Except.toBool])
  | ok p =>
    have hstate := start_client_connect_state s.session freshHandle p hsc
    have hstep : (step s (.beginGenerate freshHandle)).session = p.1 := by
      simp [step, hsc]
    simp [nostr_connect_status, hsess, hstep, hstate, Nip46State.status_json_status]

/-- C3 witness: the amended statement instantiated on the concrete
timeout schedule of the counterexample. -/
theorem c3_witness :
    (nostr_connect_status (run (step (initState emptyCfg 7 none) (.beginGenerate 1))
        (List.replicate 60 (.tick 0)))).1 = "waiting" :=
  c3_generate_no_confirmation_status (initState emptyCfg 7 none) 1
    (List.replicate 60 (.tick 0))
    (fun _e he => ⟨0, List.eq_of_mem_replicate he⟩) rfl

/-- C1 counterexample: generate-mode `begin_pairing` spawns monitor 0;
`end_pairing` cancels the attempt; a new direct-mode `begin_pairing`
connects (superseding the generate attempt).  At its next tick the
monitor spawned by the superseded attempt calls `enable_nip46_signer`:
the code has no attempt token that would stop it. -/
theorem c1_counterexample :
    tickActivates (run (initState emptyCfg 7 none)
        [.beginGenerate 1, .endPairing, .beginBunker true 2 (.ok 42)]) 0 = true :=
  rfl

/-- C1 amended: the monitor carries no attempt token; what gates the
`enable_nip46_signer` call at a tick is only whether the shared session
is currently `Connected`.  Whenever it is not — in particular after
`end_pairing` or a superseding generate-mode `begin_pairing` with no
later successful bunker connect — a tick performs no activation and
leaves the client (its `has_write_access`, `public_key`,
`nip46_active`) unchanged.  A leftover monitor that ticks while a later
bunker-mode attempt has the session `Connected` does call
`enable_nip46_signer` (see the counterexample). -/
theorem c1_stale_monitor_no_activation (s : SysState) (i : Nat)
    (h : s.session.is_connected = false) :
    tickActivates s i = false ∧ (step s (.tick i)).client = s.client := by
  constructor
  · unfold tickActivates
    cases hm : s.monitors.get? i with
    | none => rfl
    | some o =>
      cases o with
      | none => rfl
      | some m =>
        by_cases hr : m.remaining = 0 <;> simp [monitorTick, h, hr]
  · simp only [step]
    cases hm : s.monitors.get? i with
    | none => simp [hm]
    | some o =>
      cases o with
      | none => simp [hm]
      | some m =>
        by_cases hr : m.remaining = 0 <;> simp [hm, monitorTick, h, hr]

/-- C1 witness: after `begin_pairing` (generate) and `end_pairing`,
with nothing re-connecting the session, the leftover monitor tick
activates nothing and changes nothing in the client. -/
theorem c1_witness :
    (run (initState emptyCfg 7 none)
        [.beginGenerate 1, .endPairing]).session.is_connected = false ∧
    (tickActivates (run (initState emptyCfg 7 none)
        [.beginGenerate 1, .endPairing]) 0 = false ∧
      (step (run (initState emptyCfg 7 none) [.beginGenerate 1, .endPairing])
          (.tick 0)).client
        = (run (initState emptyCfg 7 none) [.beginGenerate 1, .endPairing]).client) :=
  ⟨rfl, c1_stale_monitor_no_activation
    (run (initState emptyCfg 7 none) [.beginGenerate 1, .endPairing]) 0 rfl⟩
